import Mathlib

/-!
Verification of the single-connection client (`connection.go`) of the
nebula-go repository, as a shallow embedding in Lean 4.

The external world (the fbthrift transport constructors and the generated
`graph.GraphServiceClient` RPC stub) is modelled by an `Env` record of pure
response functions; the RPC stub held in the `graph` field is identified by
a generation number (`Nat`), a fresh one per stub construction, standing for
the Go pointer identity.  Every operation of the file is embedded as a
function from `Env` and the connection state to a result, the updated state
and a trace of the externally observable calls (`List Event`).  A result of
`none` models a Go nil-pointer panic (method call on a `nil` stub).
-/

namespace NebulaGo

/-- Opaque stand-in for `*tls.Config`.  The code never inspects it. -/
abbrev TLSConfig := Nat

/-- Opaque stand-in for `*nebula.Value` (tagged value union). -/
abbrev Value := Nat

/-- `http.Header` is `map[string][]string`; modelled as an association list. -/
abbrev HTTPHeader := List (String × List String)

/-- `map[string]*nebula.Value`, modelled as an association list. -/
abbrev Params := List (String × Value)

/-- Opaque stand-in for `*graph.AuthResponse`. -/
abbrev AuthResponse := Nat

/-- Opaque stand-in for `*graph.ExecutionResponse`. -/
abbrev ExecutionResponse := Nat

/-- Opaque stand-in for the `[]byte` payload of `ExecuteJsonWithParameter`. -/
abbrev JsonBytes := String

/-- `HostAddress` from the surrounding package: a `(host, port)` pair. -/
structure HostAddress where
  host : String
  port : Int
deriving DecidableEq, Repr

/-- Go errors as produced by this file: either a
`thrift.TransportException` (with its `TypeID`) or a plain
`fmt.Errorf`-style error string. -/
inductive GoError where
  | transportException (typeID : Nat) (msg : String)
  | errorString (msg : String)
deriving DecidableEq, Repr

/-- `err.Error()`: the message of a Go error. -/
def GoError.message : GoError → String
  | .transportException _ m => m
  | .errorString m => m

/-- `thrift.TIMED_OUT` from fbthrift's transport-exception type ids
(UNKNOWN = 0, NOT_OPEN = 1, ALREADY_OPEN = 2, TIMED_OUT = 3, END_OF_FILE = 4). -/
def TIMED_OUT : Nat := 3

/-- `nebula.ErrorCode_SUCCEEDED`. -/
def ErrorCode_SUCCEEDED : Int := 0

/-- The response of the `VerifyClientVersion` RPC. -/
structure VerifyClientVersionResp where
  errorCode : Int
  errorMsg : String
deriving DecidableEq, Repr

/-- The effective configuration of the transport constructed by `open`:
either an HTTP/2 POST client (url, TLS config of the options, and the
sequence of `SetHeader` calls applied to it) or a buffered header-framed
socket (joined address, TLS config, timeout). -/
inductive TransportDesc where
  | http2 (url : String) (tls : Option TLSConfig) (setHeaders : List (String × String))
  | socket (addr : String) (tls : Option TLSConfig) (timeout : Int)
deriving DecidableEq, Repr

/-- Externally observable calls made by the connection code. -/
inductive Event where
  | buildTransport (desc : TransportDesc)
  | graphOpen (gen : Nat)
  | graphIsOpen (gen : Nat)
  | verify (gen : Nat) (version : Option String)
  | auth (gen : Nat) (user pwd : String)
  | execWP (gen : Nat) (sessionID : Int) (stmt : String) (params : Params)
  | execWT (gen : Nat) (sessionID : Int) (stmt : String) (params : Params) (timeoutMs : Int)
  | execJson (gen : Nat) (sessionID : Int) (stmt : String) (params : Params)
  | signout (gen : Nat) (sessionID : Int)
  | close (gen : Nat)
  | reopenCall
deriving DecidableEq, Repr

/-- The state of a `connection` value.  The first seven fields are the Go
struct fields; `graph` holds the stub's generation number (`none` = nil
pointer); `stubOpen` (whether the current stub's transport is open) and
`nextGen` (fresh-identity supply for new stubs) model world state that the
Go heap keeps inside the stub objects. -/
structure ConnSt where
  severAddress : HostAddress
  timeout : Int
  returnedAt : Int
  sslConfig : Option TLSConfig
  useHTTP2 : Bool
  httpHeader : Option HTTPHeader
  handshakeKey : String
  graph : Option Nat
  stubOpen : Bool
  nextGen : Nat
deriving DecidableEq, Repr

/-- The external world: fbthrift constructors and the stub's RPC results.
Stub-level functions take the stub's generation number first. -/
structure Env where
  newHTTPPostClient : String → Option TLSConfig → Option GoError
  httpClientCastOk : Bool
  newSSLSocketTimeout : String → TLSConfig → Int → Option GoError
  newSocket : String → Int → Option GoError
  graphOpenRPC : Nat → Option GoError
  isOpenAfterOpen : Nat → Bool
  verifyClientVersionRPC : Nat → Option String → Except GoError VerifyClientVersionResp
  authenticateRPC : Nat → String → String → Except GoError AuthResponse
  closeRPC : Nat → Option GoError
  executeWithParameterRPC : Nat → Int → String → Params → Except GoError ExecutionResponse
  executeWithTimeoutRPC : Nat → Int → String → Params → Int → Except GoError ExecutionResponse
  executeJsonWithParameterRPC : Nat → Int → String → Params → Except GoError JsonBytes
  signoutRPC : Nat → Int → Option GoError

/-- `net.JoinHostPort`: bracket the host when it contains a colon or a
percent sign. -/
def joinHostPort (host : String) (port : Int) : String :=
  if host.data.contains (':') || host.data.contains ('%') then
    "[" ++ host ++ "]:" ++ toString port
  else
    host ++ ":" ++ toString port

/-- `newConnection`: zero connection bound to an address.  Fields not
listed in the Go literal (`useHTTP2`, `httpHeader`) get Go zero values. -/
def newConnection (now : Int) (severAddress : HostAddress) : ConnSt :=
  { severAddress := severAddress
    timeout := 0
    returnedAt := now
    sslConfig := none
    useHTTP2 := false
    httpHeader := none
    handshakeKey := ""
    graph := none
    stubOpen := false
    nextGen := 0 }

/-- The header-copy loop of `open` in the HTTP/2 branch:
skip `Content-Type`, and `SetHeader(k, v)` once per value of every other
key, in order. -/
def headerCalls : HTTPHeader → List (String × String)
  | [] => []
  | (k, vv) :: rest =>
    if k = "Content-Type" then headerCalls rest
    else vv.map (fun v => (k, v)) ++ headerCalls rest

/-- The transport-construction part of `connection.open` (everything up to
`cn.graph = graph.NewGraphServiceClientFactory(transport, pf)`): selects the
variant, may fail with the wrapped construction error or the failed
HTTP-client cast, and otherwise yields the effective transport
configuration. -/
def buildTransport (env : Env) (hostAddress : HostAddress) (timeout : Int)
    (sslConfig : Option TLSConfig) (useHTTP2 : Bool) (httpHeader : Option HTTPHeader) :
    Except GoError TransportDesc :=
  let newAdd := joinHostPort hostAddress.host hostAddress.port
  if useHTTP2 then
    let url := match sslConfig with
      | some _ => "https://" ++ newAdd
      | none => "http://" ++ newAdd
    match env.newHTTPPostClient url sslConfig with
    | some e => .error (.errorString ("failed to create a net.Conn-backed Transport,: " ++ e.message))
    | none =>
      match httpHeader with
      | some h =>
        if env.httpClientCastOk then .ok (.http2 url sslConfig (headerCalls h))
        else .error (.errorString "failed to get thrift http client")
      | none => .ok (.http2 url sslConfig [])
  else
    let res := match sslConfig with
      | some c => env.newSSLSocketTimeout newAdd c timeout
      | none => env.newSocket newAdd timeout
    match res with
    | some e => .error (.errorString ("failed to create a net.Conn-backed Transport,: " ++ e.message))
    | none => .ok (.socket newAdd sslConfig timeout)

/-- The version put on the `VerifyClientVersionReq`:
`req.SetVersion([]byte(key))` only when the key is non-empty. -/
def verReq (handshakeKey : String) : Option String :=
  if handshakeKey ≠ "" then some handshakeKey else none

/-- The body of `connection.verifyClientVersion`, for a connection whose
`graph` field is the stub `g` (which it is at every call site). -/
def verifyCore (env : Env) (g : Nat) (cn : ConnSt) : Option GoError × ConnSt × List Event :=
  let version := verReq cn.handshakeKey
  match env.verifyClientVersionRPC g version with
  | .error e =>
    -- `cn.close()` with `cn.graph = some g`
    (some (.errorString ("failed to verify client handshakeKey: " ++ e.message)),
      { cn with stubOpen := false }, [Event.verify g version, Event.close g])
  | .ok resp =>
    if resp.errorCode ≠ ErrorCode_SUCCEEDED then
      (some (.errorString ("incompatible handshakeKey between client and server: " ++ resp.errorMsg)),
        cn, [Event.verify g version])
    else
      (none, cn, [Event.verify g version])

/-- `connection.verifyClientVersion`.  Outer `none` = nil-stub panic. -/
def verifyClientVersion (env : Env) (cn : ConnSt) :
    Option (Option GoError) × ConnSt × List Event :=
  match cn.graph with
  | none => (none, cn, [])
  | some g =>
    let r := verifyCore env g cn
    (some r.1, r.2.1, r.2.2)

/-- `connection.open`.  Stores `timeout`, `useHTTP2` and `handshakeKey`
(and only those) on the connection, builds the transport, creates the stub,
opens it, double-checks `IsOpen`, and runs the handshake. -/
def connOpen (env : Env) (hostAddress : HostAddress) (timeout : Int)
    (sslConfig : Option TLSConfig) (useHTTP2 : Bool) (httpHeader : Option HTTPHeader)
    (handshakeKey : String) (cn : ConnSt) : Option GoError × ConnSt × List Event :=
  let cn1 : ConnSt := { cn with timeout := timeout, useHTTP2 := useHTTP2, handshakeKey := handshakeKey }
  match buildTransport env hostAddress timeout sslConfig useHTTP2 httpHeader with
  | .error e => (some e, cn1, [])
  | .ok desc =>
    let g := cn1.nextGen
    let cn2 : ConnSt := { cn1 with graph := some g, nextGen := g + 1, stubOpen := false }
    match env.graphOpenRPC g with
    | some e =>
      (some (GoError.errorString ("failed to open transport, error: " ++ e.message)), cn2,
        [Event.buildTransport desc, Event.graphOpen g])
    | none =>
      let isOp := env.isOpenAfterOpen g
      let cn3 : ConnSt := { cn2 with stubOpen := isOp }
      if isOp then
        -- `cn.verifyClientVersion()` with `cn.graph = some g`
        let v := verifyCore env g cn3
        (v.1, v.2.1,
          [Event.buildTransport desc, Event.graphOpen g, Event.graphIsOpen g] ++ v.2.2)
      else
        (some (GoError.errorString "transport is off"), cn3,
          [Event.buildTransport desc, Event.graphOpen g, Event.graphIsOpen g])

/-- `connection.close`: `cn.graph.Close()`, result discarded.
`none` = nil-stub panic. -/
def close (_env : Env) (cn : ConnSt) : Option Unit × ConnSt × List Event :=
  match cn.graph with
  | none => (none, cn, [])
  | some g => (some (), { cn with stubOpen := false }, [Event.close g])

/-- `connection.reopen`: `cn.close()` then `cn.open` with the stored
fields.  The leading `Event.reopenCall` marks the reopen for trace
counting.  Outer `none` = nil-stub panic inside `close`. -/
def reopen (env : Env) (cn : ConnSt) : Option (Option GoError) × ConnSt × List Event :=
  match cn.graph with
  | none => (none, cn, [Event.reopenCall])
  | some g =>
    -- `cn.close()` with `cn.graph = some g`
    let cn1 : ConnSt := { cn with stubOpen := false }
    let r := connOpen env cn1.severAddress cn1.timeout cn1.sslConfig cn1.useHTTP2
      cn1.httpHeader cn1.handshakeKey cn1
    (some r.1, r.2.1, Event.reopenCall :: Event.close g :: r.2.2)

/-- `connection.authenticate`. -/
def authenticate (env : Env) (username password : String) (cn : ConnSt) :
    Option (Except GoError AuthResponse) × ConnSt × List Event :=
  match cn.graph with
  | none => (none, cn, [])
  | some g =>
    match env.authenticateRPC g username password with
    | .ok resp => (some (.ok resp), cn, [Event.auth g username password])
    | .error e =>
      let err := GoError.errorString ("authentication fails, " ++ e.message)
      let err := match env.closeRPC g with
        | some e2 => GoError.errorString ("fail to close transport, error: " ++ e2.message)
        | none => err
      (some (.error err), { cn with stubOpen := false },
        [Event.auth g username password, Event.close g])

/-- `connection.executeWithParameter`. -/
def executeWithParameter (env : Env) (sessionID : Int) (stmt : String) (params : Params)
    (cn : ConnSt) : Option (Except GoError ExecutionResponse) × ConnSt × List Event :=
  match cn.graph with
  | none => (none, cn, [])
  | some g =>
    (some (env.executeWithParameterRPC g sessionID stmt params), cn,
      [Event.execWP g sessionID stmt params])

/-- `connection.execute`: delegate with the empty parameter map. -/
def execute (env : Env) (sessionID : Int) (stmt : String) (cn : ConnSt) :
    Option (Except GoError ExecutionResponse) × ConnSt × List Event :=
  executeWithParameter env sessionID stmt [] cn

/-- `connection.executeWithParameterTimeout`. -/
def executeWithParameterTimeout (env : Env) (sessionID : Int) (stmt : String)
    (params : Params) (timeoutMs : Int) (cn : ConnSt) :
    Option (Except GoError ExecutionResponse) × ConnSt × List Event :=
  match cn.graph with
  | none => (none, cn, [])
  | some g =>
    (some (env.executeWithTimeoutRPC g sessionID stmt params timeoutMs), cn,
      [Event.execWT g sessionID stmt params timeoutMs])

/-- The timeout test of `ExecuteJsonWithParameter`:
`_, ok := err.(thrift.TransportException); ok && TypeID() == TIMED_OUT`. -/
def isTimeoutError : GoError → Bool
  | .transportException tid _ => tid = TIMED_OUT
  | .errorString _ => false

/-- `connection.ExecuteJsonWithParameter`, including the
timeout-triggered reopen-and-retry. -/
def ExecuteJsonWithParameter (env : Env) (sessionID : Int) (stmt : String) (params : Params)
    (cn : ConnSt) : Option (Except GoError JsonBytes) × ConnSt × List Event :=
  match cn.graph with
  | none => (none, cn, [])
  | some g =>
    let log0 := [Event.execJson g sessionID stmt params]
    match env.executeJsonWithParameterRPC g sessionID stmt params with
    | .ok bytes => (some (.ok bytes), cn, log0)
    | .error err =>
      if isTimeoutError err then
        match reopen env cn with
        | (none, cn2, ev2) => (none, cn2, log0 ++ ev2)
        | (some (some reopenErr), cn2, ev2) => (some (.error reopenErr), cn2, log0 ++ ev2)
        | (some none, cn2, ev2) =>
          match cn2.graph with
          | none => (none, cn2, log0 ++ ev2)
          | some g2 =>
            (some (env.executeJsonWithParameterRPC g2 sessionID stmt params), cn2,
              log0 ++ ev2 ++ [Event.execJson g2 sessionID stmt params])
      else (some (.error err), cn, log0)

/-- `connection.executeJson`: delegate with the empty parameter map. -/
def executeJson (env : Env) (sessionID : Int) (stmt : String) (cn : ConnSt) :
    Option (Except GoError JsonBytes) × ConnSt × List Event :=
  ExecuteJsonWithParameter env sessionID stmt [] cn

/-- `connection.ping`: `execute(0, "YIELD 1")` and report `err == nil`. -/
def ping (env : Env) (cn : ConnSt) : Option Bool × ConnSt × List Event :=
  let r := execute env 0 "YIELD 1" cn
  match r.1 with
  | none => (none, r.2.1, r.2.2)
  | some (.ok _) => (some true, r.2.1, r.2.2)
  | some (.error _) => (some false, r.2.1, r.2.2)

/-- `connection.signOut`. -/
def signOut (env : Env) (sessionID : Int) (cn : ConnSt) :
    Option (Option GoError) × ConnSt × List Event :=
  match cn.graph with
  | none => (none, cn, [])
  | some g => (some (env.signoutRPC g sessionID), cn, [Event.signout g sessionID])

/-- `connection.release`: stamp `returnedAt` with the current time.
The `Env` parameter is taken only to state formally that no part of the
external world is consulted. -/
def release (_env : Env) (now : Int) (cn : ConnSt) : ConnSt × List Event :=
  ({ cn with returnedAt := now }, [])

/-- Number of `reopenCall` markers in a trace. -/
def countReopen : List Event → Nat
  | [] => 0
  | .reopenCall :: rest => countReopen rest + 1
  | _ :: rest => countReopen rest

/-- Number of `ExecuteJsonWithParameter` RPC calls in a trace. -/
def countExecJson : List Event → Nat
  | [] => 0
  | .execJson _ _ _ _ :: rest => countExecJson rest + 1
  | _ :: rest => countExecJson rest

/-- Bool test for byte-prefix of strings (via the character lists). -/
def strHasPre (p s : String) : Bool :=
  p.data.isPrefixOf s.data

/-- Whether an error is the handshake-rejection error of
`verifyClientVersion` (server said the versions are incompatible). -/
def GoError.isIncompatibleHandshake : GoError → Bool
  | .errorString m => strHasPre "incompatible handshakeKey between client and server: " m
  | _ => false

/-- A concrete server address used in concrete evaluations. -/
def addrA : HostAddress := ⟨"h", 1⟩

/-- An environment in which every external call succeeds. -/
def envOK : Env :=
  { newHTTPPostClient := fun _ _ => none
    httpClientCastOk := true
    newSSLSocketTimeout := fun _ _ _ => none
    newSocket := fun _ _ => none
    graphOpenRPC := fun _ => none
    isOpenAfterOpen := fun _ => true
    verifyClientVersionRPC := fun _ _ => .ok ⟨0, ""⟩
    authenticateRPC := fun _ _ _ => .ok 1
    closeRPC := fun _ => none
    executeWithParameterRPC := fun _ _ _ _ => .ok 1
    executeWithTimeoutRPC := fun _ _ _ _ _ => .ok 1
    executeJsonWithParameterRPC := fun _ _ _ _ => .ok "payload"
    signoutRPC := fun _ _ => none }

/-- Like `envOK` but the server rejects the handshake. -/
def envReject : Env :=
  { envOK with verifyClientVersionRPC := fun _ _ => .ok ⟨-1, "bad version"⟩ }

/-- Like `envOK` but the `VerifyClientVersion` RPC itself fails. -/
def envVerifyRPCFail : Env :=
  { envOK with verifyClientVersionRPC := fun _ _ => .error (.errorString "net down") }

/-- Like `envOK` but `Authenticate` fails and `Close` also fails. -/
def envAuthFail : Env :=
  { envOK with
    authenticateRPC := fun _ _ _ => .error (.errorString "denied")
    closeRPC := fun _ => some (.errorString "cfail") }

/-- Like `envOK` but `ExecuteWithParameter` fails. -/
def envExecFail : Env :=
  { envOK with executeWithParameterRPC := fun _ _ _ _ => .error (.errorString "down") }

/-- Like `envOK` but the `ExecuteJsonWithParameter` RPC times out on the
first stub (generation 0) and succeeds on any later one. -/
def envRetry : Env :=
  { envOK with
    executeJsonWithParameterRPC := fun g _ _ _ =>
      if g = 0 then .error (.transportException TIMED_OUT "read timeout") else .ok "retried" }

/-- A concrete connection state as reached by `newConnection` at `addrA`
followed by a successful plain-socket `connOpen` under `envOK`. -/
def cnW : ConnSt :=
  { severAddress := addrA
    timeout := 5
    returnedAt := 0
    sslConfig := none
    useHTTP2 := false
    httpHeader := none
    handshakeKey := ""
    graph := some 0
    stubOpen := true
    nextGen := 1 }

/-- The state `cnW` is indeed produced by `newConnection` + `connOpen`. -/
theorem cnW_reachable :
    connOpen envOK addrA 5 none false none "" (newConnection 0 addrA)
      = (none, cnW,
        [Event.buildTransport (TransportDesc.socket "h:1" none 5),
          Event.graphOpen 0, Event.graphIsOpen 0, Event.verify 0 none]) := by
  rfl

/-- The state reached by `newConnection` at `addrA` followed by a
successful `connOpen` that passed a non-nil TLS config (`some 7`) and
handshake key "k".  Note the state's `sslConfig` field stays `none`:
`open` does not store its `sslConfig` argument. -/
def cnAfterOpenSSL : ConnSt :=
  (connOpen envOK addrA 5 (some 7) false none "k" (newConnection 0 addrA)).2.1

/-- Claim C1, evaluated at the failing input: an `open` that succeeded
with TLS config `some 7` built the transport `socket "h:1" (some 7) 5`,
yet the subsequent successful `reopen` rebuilt `socket "h:1" none 5` —
the TLS config of the reopened transport is not byte-identical to the one
passed to the original `open`, because `open` stores only `timeout`,
`useHTTP2` and `handshakeKey` and `reopen` reuses the connection's stored
(constructor-time) `sslConfig`, `httpHeader` and `severAddress`. -/
theorem C1_reopen_drops_sslConfig :
    (connOpen envOK addrA 5 (some 7) false none "k" (newConnection 0 addrA)).1 = none
      ∧ (connOpen envOK addrA 5 (some 7) false none "k" (newConnection 0 addrA)).2.2.head?
        = some (Event.buildTransport (TransportDesc.socket "h:1" (some 7) 5))
      ∧ (reopen envOK cnAfterOpenSSL).1 = some none
      ∧ (reopen envOK cnAfterOpenSSL).2.2
        = [Event.reopenCall, Event.close 0,
            Event.buildTransport (TransportDesc.socket "h:1" none 5),
            Event.graphOpen 1, Event.graphIsOpen 1, Event.verify 1 (some "k")]
      ∧ TransportDesc.socket "h:1" (some 7) 5 ≠ TransportDesc.socket "h:1" none 5 :=
  ⟨rfl, rfl, rfl, rfl, by decide⟩

/-- A list is a `isPrefixOf` of itself followed by anything. -/
theorem isPrefixOf_self_append (l m : List Char) : l.isPrefixOf (l ++ m) = true := by
  induction l with
  | nil => simp [List.isPrefixOf]
  | cons a as ih => simp [List.isPrefixOf, ih]

/-- Every handshake-rejection error is recognized by
`GoError.isIncompatibleHandshake`. -/
theorem incompatible_msg_isIncompatible (m : String) :
    (GoError.errorString
        ("incompatible handshakeKey between client and server: " ++ m)).isIncompatibleHandshake
      = true := by
  simp [GoError.isIncompatibleHandshake, strHasPre, String.data_append, isPrefixOf_self_append]

/-- Claim C2 as amended: when `open` is invoked on a connection whose
transport is not open (as at every call site), then (i) the only error
that can leave the transport open is the handshake-rejection error
("incompatible handshakeKey ...", i.e. the verify RPC succeeded with
`errorCode != SUCCEEDED`), (ii) on any other error the connection is left
closed, and (iii) on success the transport is open (and handshaked). -/
theorem C2_open_error_leaves_closed_except_reject (env : Env) (hostAddress : HostAddress)
    (timeout : Int) (sslConfig : Option TLSConfig) (useHTTP2 : Bool)
    (httpHeader : Option HTTPHeader) (handshakeKey : String) (cn : ConnSt)
    (h0 : cn.stubOpen = false) :
    (∀ e, (connOpen env hostAddress timeout sslConfig useHTTP2 httpHeader handshakeKey cn).1
          = some e →
        (connOpen env hostAddress timeout sslConfig useHTTP2 httpHeader handshakeKey cn).2.1.stubOpen
          = true →
        e.isIncompatibleHandshake = true)
      ∧ (∀ e, (connOpen env hostAddress timeout sslConfig useHTTP2 httpHeader handshakeKey cn).1
          = some e →
        e.isIncompatibleHandshake = false →
        (connOpen env hostAddress timeout sslConfig useHTTP2 httpHeader handshakeKey cn).2.1.stubOpen
          = false)
      ∧ ((connOpen env hostAddress timeout sslConfig useHTTP2 httpHeader handshakeKey cn).1
          = none →
        (connOpen env hostAddress timeout sslConfig useHTTP2 httpHeader handshakeKey cn).2.1.stubOpen
          = true) := by
  rcases hbt : buildTransport env hostAddress timeout sslConfig useHTTP2 httpHeader with e0 | desc
  · simp [connOpen, hbt, h0]
  · rcases hop : env.graphOpenRPC cn.nextGen with _ | e2
    · cases hio : env.isOpenAfterOpen cn.nextGen
      · simp [connOpen, hbt, hop, hio]
      · rcases hv : env.verifyClientVersionRPC cn.nextGen (verReq handshakeKey) with e3 | resp
        · simp [connOpen, verifyCore, hbt, hop, hio, hv]
        · by_cases hc : resp.errorCode = ErrorCode_SUCCEEDED
          · simp [connOpen, verifyCore, hbt, hop, hio, hv, hc]
          · simp [connOpen, verifyCore, hbt, hop, hio, hv, hc, incompatible_msg_isIncompatible]
    · simp [connOpen, hbt, hop]

/-- Witness for C2's amended theorem: under `envVerifyRPCFail` the verify
RPC itself fails, `open` returns a non-rejection error, and the connection
is left closed. -/
theorem C2_witness :
    (connOpen envVerifyRPCFail addrA 5 none false none ""
        (newConnection 0 addrA)).2.1.stubOpen = false :=
  (C2_open_error_leaves_closed_except_reject envVerifyRPCFail addrA 5 none false none ""
      (newConnection 0 addrA) rfl).2.1
    (GoError.errorString "failed to verify client handshakeKey: net down") rfl (by decide)

/-- Counterexample to claim C2 as stated: under `envReject` the handshake
verification fails (server reports an incompatible version), `open`
returns an error, yet the connection still holds a stub whose transport is
open — it is open-but-unverified, not closed. -/
theorem C2_counterexample :
    (connOpen envReject addrA 5 none false none "" (newConnection 0 addrA)).1
        = some (GoError.errorString
          "incompatible handshakeKey between client and server: bad version")
      ∧ (connOpen envReject addrA 5 none false none "" (newConnection 0 addrA)).2.1.graph
        = some 0
      ∧ (connOpen envReject addrA 5 none false none "" (newConnection 0 addrA)).2.1.stubOpen
        = true :=
  ⟨rfl, rfl, rfl⟩

/-- Claim C7: `execute(sessionID, statement)` returns exactly the same
result, state and trace as `executeWithParameter(sessionID, statement, {})`
with an empty parameter map. -/
theorem C7_execute_eq_executeWithParameter (env : Env) (sessionID : Int) (stmt : String)
    (cn : ConnSt) :
    execute env sessionID stmt cn = executeWithParameter env sessionID stmt [] cn := rfl

/-- Claim C9: `release` performs no external call (its trace is empty and
it is independent of the environment) and mutates only the `returnedAt`
timestamp, leaving address, timeout, TLS config, transport variant,
headers, handshake key and the transport handle unchanged. -/
theorem C9_release_frame (env env2 : Env) (now : Int) (cn : ConnSt) :
    release env now cn = release env2 now cn
      ∧ (release env now cn).2 = []
      ∧ (release env now cn).1.returnedAt = now
      ∧ (release env now cn).1.severAddress = cn.severAddress
      ∧ (release env now cn).1.timeout = cn.timeout
      ∧ (release env now cn).1.sslConfig = cn.sslConfig
      ∧ (release env now cn).1.useHTTP2 = cn.useHTTP2
      ∧ (release env now cn).1.httpHeader = cn.httpHeader
      ∧ (release env now cn).1.handshakeKey = cn.handshakeKey
      ∧ (release env now cn).1.graph = cn.graph
      ∧ (release env now cn).1.stubOpen = cn.stubOpen
      ∧ (release env now cn).1.nextGen = cn.nextGen :=
  ⟨rfl, rfl, rfl, rfl, rfl, rfl, rfl, rfl, rfl, rfl, rfl, rfl⟩

/-- Claim C10: a connection produced by `newConnection` has a nil RPC stub,
and every stub-using operation (`close`, `ping`, `authenticate`, `signOut`
and all `execute` variants) invoked before a successful `open` dereferences
the nil stub: in the model it yields the panic value `none`, not a defined
error-returning result. -/
theorem C10_nil_stub_panics (env : Env) (now : Int) (a : HostAddress) (sessionID : Int)
    (stmt : String) (params : Params) (u p : String) (timeoutMs : Int) :
    (newConnection now a).graph = none
      ∧ (close env (newConnection now a)).1 = none
      ∧ (ping env (newConnection now a)).1 = none
      ∧ (authenticate env u p (newConnection now a)).1 = none
      ∧ (signOut env sessionID (newConnection now a)).1 = none
      ∧ (execute env sessionID stmt (newConnection now a)).1 = none
      ∧ (executeWithParameter env sessionID stmt params (newConnection now a)).1 = none
      ∧ (executeWithParameterTimeout env sessionID stmt params timeoutMs
          (newConnection now a)).1 = none
      ∧ (executeJson env sessionID stmt (newConnection now a)).1 = none
      ∧ (ExecuteJsonWithParameter env sessionID stmt params (newConnection now a)).1 = none :=
  ⟨rfl, rfl, rfl, rfl, rfl, rfl, rfl, rfl, rfl, rfl⟩

/-- Claim C4: in `verifyClientVersion`, a failure of the RPC itself closes
the connection immediately (state update to `stubOpen = false`, a `close`
call in the trace) and returns the wrapped error, while a successful RPC
with `errorCode != SUCCEEDED` returns the "incompatible handshake" error
carrying the server's message with the state unchanged and no `close` call. -/
theorem C4_verify_branches (env : Env) (cn : ConnSt) (g : Nat) (hg : cn.graph = some g) :
    (∀ e, env.verifyClientVersionRPC g (verReq cn.handshakeKey) = .error e →
        verifyClientVersion env cn
          = (some (some (GoError.errorString
              ("failed to verify client handshakeKey: " ++ e.message))),
              { cn with stubOpen := false },
              [Event.verify g (verReq cn.handshakeKey), Event.close g]))
      ∧ (∀ resp, env.verifyClientVersionRPC g (verReq cn.handshakeKey) = .ok resp →
        resp.errorCode ≠ ErrorCode_SUCCEEDED →
        verifyClientVersion env cn
          = (some (some (GoError.errorString
              ("incompatible handshakeKey between client and server: " ++ resp.errorMsg))),
              cn, [Event.verify g (verReq cn.handshakeKey)])) := by
  constructor
  · intro e he
    simp [verifyClientVersion, verifyCore, hg, he]
  · intro resp hr hc
    simp [verifyClientVersion, verifyCore, hg, hr, hc]

/-- Witness for C4: under `envVerifyRPCFail` the RPC fails and the
connection on `cnW` is closed with the wrapped error. -/
theorem C4_witness :
    verifyClientVersion envVerifyRPCFail cnW
      = (some (some (GoError.errorString "failed to verify client handshakeKey: net down")),
          { cnW with stubOpen := false }, [Event.verify 0 none, Event.close 0]) :=
  (C4_verify_branches envVerifyRPCFail cnW 0 rfl).1 (GoError.errorString "net down") rfl

/-- Claim C5: when the `Authenticate` RPC fails, `authenticate` wraps the
failure, attempts the transport close (a `close` call is in the trace and
the transport ends up closed), and — if that close itself fails — the
returned error consists only of the close failure, discarding the
authentication error; in both cases the returned response is nil (the
result is an `Except.error`). -/
theorem C5_auth_close_overwrites (env : Env) (cn : ConnSt) (g : Nat) (u p : String)
    (e : GoError) (hg : cn.graph = some g) (he : env.authenticateRPC g u p = .error e) :
    (env.closeRPC g = none →
        authenticate env u p cn
          = (some (.error (GoError.errorString ("authentication fails, " ++ e.message))),
              { cn with stubOpen := false }, [Event.auth g u p, Event.close g]))
      ∧ (∀ e2, env.closeRPC g = some e2 →
        authenticate env u p cn
          = (some (.error (GoError.errorString
              ("fail to close transport, error: " ++ e2.message))),
              { cn with stubOpen := false }, [Event.auth g u p, Event.close g])) := by
  constructor
  · intro hc
    simp [authenticate, hg, he, hc]
  · intro e2 hc
    simp [authenticate, hg, he, hc]

/-- Witness for C5: under `envAuthFail` both the RPC and the close fail;
the returned error is only the close failure. -/
theorem C5_witness :
    authenticate envAuthFail "u" "pw" cnW
      = (some (Except.error (GoError.errorString "fail to close transport, error: cfail")),
          { cnW with stubOpen := false }, [Event.auth 0 "u" "pw", Event.close 0]) :=
  (C5_auth_close_overwrites envAuthFail cnW 0 "u" "pw" (GoError.errorString "denied")
      rfl rfl).2 (GoError.errorString "cfail") rfl

/-- Claim C6: `ping` answers `some true` exactly when
`execute(0, "YIELD 1")` returns a non-error result, and answers
`some false` (rather than propagating the error) whenever the underlying
execute returns an error. -/
theorem C6_ping_iff (env : Env) (cn : ConnSt) :
    ((ping env cn).1 = some true
        ↔ ∃ r, (execute env 0 "YIELD 1" cn).1 = some (Except.ok r))
      ∧ (∀ e, (execute env 0 "YIELD 1" cn).1 = some (Except.error e) →
        (ping env cn).1 = some false) := by
  rcases hx : (execute env 0 "YIELD 1" cn).1 with _ | (e | r) <;> simp [ping, hx]

/-- Witness for C6: under `envExecFail` the execute errors and `ping`
answers `some false`. -/
theorem C6_witness : (ping envExecFail cnW).1 = some false :=
  (C6_ping_iff envExecFail cnW).2 (GoError.errorString "down") rfl

/-- Membership in `headerCalls`: every value of every non-`Content-Type`
key yields its own `SetHeader` call. -/
theorem headerCalls_mem (h : HTTPHeader) (k : String) (vv : List String) (v : String)
    (hmem : (k, vv) ∈ h) (hk : k ≠ "Content-Type") (hv : v ∈ vv) :
    (k, v) ∈ headerCalls h := by
  induction h with
  | nil => simp at hmem
  | cons kv rest ih =>
    obtain ⟨k1, vv1⟩ := kv
    rcases List.mem_cons.mp hmem with heq | htl
    · injection heq with e1 e2
      subst e1
      subst e2
      rw [show headerCalls ((k, vv) :: rest)
          = vv.map (fun v2 => (k, v2)) ++ headerCalls rest from by simp [headerCalls, hk]]
      exact List.mem_append.mpr (Or.inl (List.mem_map.mpr ⟨v, hv, rfl⟩))
    · have hmemtl : (k, v) ∈ headerCalls rest := ih htl
      by_cases hkv : k1 = "Content-Type"
      · rw [show headerCalls ((k1, vv1) :: rest) = headerCalls rest from by
          simp [headerCalls, hkv]]
        exact hmemtl
      · rw [show headerCalls ((k1, vv1) :: rest)
            = vv1.map (fun v2 => (k1, v2)) ++ headerCalls rest from by simp [headerCalls, hkv]]
        exact List.mem_append.mpr (Or.inr hmemtl)

/-- No `SetHeader` call of `headerCalls` carries the `Content-Type` key. -/
theorem headerCalls_no_contentType (h : HTTPHeader) (q : String × String)
    (hq : q ∈ headerCalls h) : q.1 ≠ "Content-Type" := by
  induction h with
  | nil => simp [headerCalls] at hq
  | cons kv rest ih =>
    obtain ⟨k1, vv1⟩ := kv
    by_cases hkv : k1 = "Content-Type"
    · rw [show headerCalls ((k1, vv1) :: rest) = headerCalls rest from by
        simp [headerCalls, hkv]] at hq
      exact ih hq
    · rw [show headerCalls ((k1, vv1) :: rest)
          = vv1.map (fun v2 => (k1, v2)) ++ headerCalls rest from by
        simp [headerCalls, hkv]] at hq
      rcases List.mem_append.mp hq with hmap | htl
      · obtain ⟨v, _, hq2⟩ := List.mem_map.mp hmap
        rw [← hq2]
        simpa using hkv
      · exact ih htl

/-- The number of `SetHeader` calls is the total number of values of the
non-`Content-Type` keys: one call per value. -/
theorem headerCalls_length (h : HTTPHeader) :
    (headerCalls h).length
      = ((h.filter (fun kv => kv.1 ≠ "Content-Type")).map (fun kv => kv.2.length)).sum := by
  induction h with
  | nil => rfl
  | cons kv rest ih =>
    obtain ⟨k1, vv1⟩ := kv
    by_cases hkv : k1 = "Content-Type"
    · simp [headerCalls, hkv, ih]
    · simp [headerCalls, hkv, ih]

/-- Claim C8: in an HTTP/2 `open` with a non-nil header map that reaches
transport construction successfully, every header key except
`Content-Type` is copied onto the HTTP client — each value of a
multi-valued header by its own `SetHeader` call — and the `Content-Type`
key is never copied. -/
theorem C8_http2_header_copy (env : Env) (hostAddress : HostAddress) (timeout : Int)
    (sslConfig : Option TLSConfig) (h : HTTPHeader) (url : String) (tls : Option TLSConfig)
    (hs : List (String × String))
    (hb : buildTransport env hostAddress timeout sslConfig true (some h)
        = .ok (TransportDesc.http2 url tls hs)) :
    (∀ k vv, (k, vv) ∈ h → k ≠ "Content-Type" → ∀ v ∈ vv, (k, v) ∈ hs)
      ∧ (∀ q ∈ hs, q.1 ≠ "Content-Type")
      ∧ hs.length
        = ((h.filter (fun kv => kv.1 ≠ "Content-Type")).map (fun kv => kv.2.length)).sum := by
  have hhs : hs = headerCalls h := by
    simp only [buildTransport, if_true] at hb
    split at hb
    · simp at hb
    · split at hb
      · simp at hb
        exact hb.2.2.symm
      · simp at hb
  subst hhs
  refine ⟨?_, ?_, headerCalls_length h⟩
  · intro k vv hmem hk v hv
    exact headerCalls_mem h k vv v hmem hk hv
  · intro q hq
    exact headerCalls_no_contentType h q hq

/-- Witness for C8: a concrete HTTP/2 open under `envOK` with a
two-valued header and a `Content-Type` header. -/
theorem C8_witness :
    ("X-A", "2") ∈ [("X-A", "1"), ("X-A", "2")]
      ∧ ∀ q ∈ ([("X-A", "1"), ("X-A", "2")] : List (String × String)),
        q.1 ≠ "Content-Type" := by
  have h := C8_http2_header_copy envOK addrA 5 none
    [("X-A", ["1", "2"]), ("Content-Type", ["ct"])] "http://h:1" none
    [("X-A", "1"), ("X-A", "2")] rfl
  exact ⟨h.1 "X-A" ["1", "2"] (by simp) (by decide) "2" (by simp), h.2.1⟩

/-- `countReopen` distributes over append. -/
theorem countReopen_append (a b : List Event) :
    countReopen (a ++ b) = countReopen a + countReopen b := by
  induction a with
  | nil => simp [countReopen]
  | cons e rest ih => cases e <;> (simp [countReopen, ih]; try omega)

/-- `countExecJson` distributes over append. -/
theorem countExecJson_append (a b : List Event) :
    countExecJson (a ++ b) = countExecJson a + countExecJson b := by
  induction a with
  | nil => simp [countExecJson]
  | cons e rest ih => cases e <;> (simp [countExecJson, ih]; try omega)

/-- `connOpen` performs no reopen and no `ExecuteJsonWithParameter` call,
and when it succeeds the connection holds the freshly created stub. -/
theorem connOpen_aux (env : Env) (hostAddress : HostAddress) (timeout : Int)
    (sslConfig : Option TLSConfig) (useHTTP2 : Bool) (httpHeader : Option HTTPHeader)
    (handshakeKey : String) (cn : ConnSt) :
    countReopen (connOpen env hostAddress timeout sslConfig useHTTP2 httpHeader
        handshakeKey cn).2.2 = 0
      ∧ countExecJson (connOpen env hostAddress timeout sslConfig useHTTP2 httpHeader
        handshakeKey cn).2.2 = 0
      ∧ ((connOpen env hostAddress timeout sslConfig useHTTP2 httpHeader
          handshakeKey cn).1 = none →
        (connOpen env hostAddress timeout sslConfig useHTTP2 httpHeader
          handshakeKey cn).2.1.graph = some cn.nextGen) := by
  rcases hbt : buildTransport env hostAddress timeout sslConfig useHTTP2 httpHeader with e0 | desc
  · simp [connOpen, hbt, countReopen, countExecJson]
  · rcases hop : env.graphOpenRPC cn.nextGen with _ | e2
    · cases hio : env.isOpenAfterOpen cn.nextGen
      · simp [connOpen, hbt, hop, hio, countReopen, countExecJson]
      · rcases hv : env.verifyClientVersionRPC cn.nextGen (verReq handshakeKey) with e3 | resp
        · simp [connOpen, verifyCore, hbt, hop, hio, hv, countReopen, countExecJson]
        · by_cases hc : resp.errorCode = ErrorCode_SUCCEEDED
          · simp [connOpen, verifyCore, hbt, hop, hio, hv, hc, countReopen, countExecJson]
          · simp [connOpen, verifyCore, hbt, hop, hio, hv, hc, countReopen, countExecJson]
    · simp [connOpen, hbt, hop, countReopen, countExecJson]

/-- `reopen` is exactly one reopen, makes no `ExecuteJsonWithParameter`
call, and when it succeeds the connection holds a stub. -/
theorem reopen_aux (env : Env) (cn : ConnSt) :
    countReopen (reopen env cn).2.2 = 1
      ∧ countExecJson (reopen env cn).2.2 = 0
      ∧ ((reopen env cn).1 = some none →
        ∃ g2, (reopen env cn).2.1.graph = some g2) := by
  rcases hg : cn.graph with _ | g
  · simp [reopen, hg, countReopen, countExecJson]
  · have h := connOpen_aux env cn.severAddress cn.timeout cn.sslConfig cn.useHTTP2
      cn.httpHeader cn.handshakeKey { cn with stubOpen := false }
    rw [hg] at h
    refine ⟨?_, ?_, ?_⟩
    · simp only [reopen, hg]
      simp [countReopen, h.1]
    · simp only [reopen, hg]
      simp [countExecJson, h.2.1]
    · intro hr
      simp only [reopen, hg] at hr ⊢
      simp at hr
      exact ⟨_, h.2.2 hr⟩

/-- Claim C3: in `ExecuteJsonWithParameter`, a successful first RPC is
returned as is with no reopen; a non-timeout error is returned unchanged
with no reopen; a transport-timeout error triggers exactly one reopen —
if the reopen fails its error replaces the timeout error and the request
is not re-issued, and if the reopen succeeds the same request is re-issued
exactly once on the fresh stub and that retry's result (or error) is
returned without any further retry. -/
theorem C3_executeJson_timeout_retry (env : Env) (cn : ConnSt) (g : Nat) (sessionID : Int)
    (stmt : String) (params : Params) (hg : cn.graph = some g) :
    (∀ b, env.executeJsonWithParameterRPC g sessionID stmt params = .ok b →
        ExecuteJsonWithParameter env sessionID stmt params cn
          = (some (.ok b), cn, [Event.execJson g sessionID stmt params]))
      ∧ (∀ e, env.executeJsonWithParameterRPC g sessionID stmt params = .error e →
        isTimeoutError e = false →
        ExecuteJsonWithParameter env sessionID stmt params cn
          = (some (.error e), cn, [Event.execJson g sessionID stmt params]))
      ∧ (∀ m, env.executeJsonWithParameterRPC g sessionID stmt params
          = .error (.transportException TIMED_OUT m) →
        (∀ re cn2 ev2, reopen env cn = (some (some re), cn2, ev2) →
            ExecuteJsonWithParameter env sessionID stmt params cn
              = (some (.error re), cn2, Event.execJson g sessionID stmt params :: ev2)
            ∧ countReopen (Event.execJson g sessionID stmt params :: ev2) = 1
            ∧ countExecJson (Event.execJson g sessionID stmt params :: ev2) = 1)
        ∧ (∀ cn2 ev2, reopen env cn = (some none, cn2, ev2) →
            ∃ g2, cn2.graph = some g2
              ∧ ExecuteJsonWithParameter env sessionID stmt params cn
                = (some (env.executeJsonWithParameterRPC g2 sessionID stmt params), cn2,
                    Event.execJson g sessionID stmt params
                      :: (ev2 ++ [Event.execJson g2 sessionID stmt params]))
              ∧ countReopen (Event.execJson g sessionID stmt params
                  :: (ev2 ++ [Event.execJson g2 sessionID stmt params])) = 1
              ∧ countExecJson (Event.execJson g sessionID stmt params
                  :: (ev2 ++ [Event.execJson g2 sessionID stmt params])) = 2)) := by
  refine ⟨?_, ?_, ?_⟩
  · intro b hb
    simp [ExecuteJsonWithParameter, hg, hb]
  · intro e he ht
    simp [ExecuteJsonWithParameter, hg, he, ht]
  · intro m hm
    have htm : isTimeoutError (GoError.transportException TIMED_OUT m) = true := by
      simp [isTimeoutError]
    constructor
    · intro re cn2 ev2 hre
      have h1 : countReopen ev2 = 1 := by
        have h := (reopen_aux env cn).1
        rw [hre] at h
        exact h
      have h2 : countExecJson ev2 = 0 := by
        have h := (reopen_aux env cn).2.1
        rw [hre] at h
        exact h
      refine ⟨?_, ?_, ?_⟩
      · simp [ExecuteJsonWithParameter, hg, hm, htm, hre]
      · simp [countReopen, h1]
      · simp [countExecJson, h2]
    · intro cn2 ev2 hre
      obtain ⟨g2, hg2⟩ := (reopen_aux env cn).2.2 (by rw [hre])
      rw [hre] at hg2
      replace hg2 : cn2.graph = some g2 := hg2
      have h1 : countReopen ev2 = 1 := by
        have h := (reopen_aux env cn).1
        rw [hre] at h
        exact h
      have h2 : countExecJson ev2 = 0 := by
        have h := (reopen_aux env cn).2.1
        rw [hre] at h
        exact h
      refine ⟨g2, hg2, ?_, ?_, ?_⟩
      · simp [ExecuteJsonWithParameter, hg, hm, htm, hre, hg2]
      · simp [countReopen, countReopen_append, h1]
      · simp [countExecJson, countExecJson_append, h2]

/-- The state after `reopen envRetry cnW` (fresh stub, generation 1). -/
def cn2W : ConnSt :=
  { severAddress := addrA
    timeout := 5
    returnedAt := 0
    sslConfig := none
    useHTTP2 := false
    httpHeader := none
    handshakeKey := ""
    graph := some 1
    stubOpen := true
    nextGen := 2 }

/-- The trace of `reopen envRetry cnW`. -/
def ev2W : List Event :=
  [Event.reopenCall, Event.close 0,
    Event.buildTransport (TransportDesc.socket "h:1" none 5),
    Event.graphOpen 1, Event.graphIsOpen 1, Event.verify 1 none]

/-- Witness for C3: under `envRetry` the first call times out, the reopen
succeeds, and the single retry on the fresh stub returns the payload, with
exactly one reopen and exactly two request issues in the trace. -/
theorem C3_witness :
    (ExecuteJsonWithParameter envRetry 7 "q" [] cnW).1 = some (Except.ok "retried")
      ∧ countReopen (ExecuteJsonWithParameter envRetry 7 "q" [] cnW).2.2 = 1
      ∧ countExecJson (ExecuteJsonWithParameter envRetry 7 "q" [] cnW).2.2 = 2 := by
  obtain ⟨g2, hg2, heq, hcr, hcj⟩ :=
    ((C3_executeJson_timeout_retry envRetry cnW 0 7 "q" [] rfl).2.2 "read timeout" rfl).2
      cn2W ev2W rfl
  have h12 : g2 = 1 := by
    have h := hg2
    simp [cn2W] at h
    omega
  subst h12
  refine ⟨?_, ?_, ?_⟩
  · rw [heq]
    rfl
  · rw [heq]
    exact hcr
  · rw [heq]
    exact hcj

end NebulaGo
